import Mathlib

/- Verification development for self-service-printer-installer
   (source/printer-installer.source.py, a Python 2 Jamf self-service script).

   The script is shallowly embedded: every subprocess, dialog and syslog
   interaction is modelled as an `Event`, the external world (filesystem,
   jamf binary output, ldap results, lpstat output, the dialog tool) is an
   explicit `Env` record, and each Python function becomes a Lean function
   returning a `PR` value (a list of emitted events plus either a normal
   return value or a `Term`ination: Python's `quit()`, `sys.exit(1)`, or an
   uncaught exception).  Python string operations used by the script
   (substring test, `split`, `splitlines`, `strip`, `startswith`, `sorted`)
   are re-implemented over `List Char` so that everything kernel-reduces. -/

namespace PrinterInstaller

/-! ## Python string primitives over character lists -/

/-- Boolean test: the first list is a leading segment of the second
(Python `str.startswith`, on characters). -/
def chPre : List Char → List Char → Bool
  | [], _ => true
  | _ :: _, [] => false
  | a :: as, b :: bs => a == b && chPre as bs

/-- Boolean test: the first list occurs contiguously inside the second
(Python `needle in haystack` on strings). -/
def chInfix (needle : List Char) : List Char → Bool
  | [] => needle.isEmpty
  | b :: bs => chPre needle (b :: bs) || chInfix needle bs

/-- Python `needle in haystack` for strings. -/
def containsSub (haystack needle : String) : Bool :=
  chInfix needle.data haystack.data

/-- Python `str.startswith`. -/
def pyStartsWith (s pre : String) : Bool :=
  chPre pre.data s.data

/-- Lexicographic comparison of character lists by code point; this is how
Python 2 compares the unicode strings produced by `json.loads`. -/
def lexLe : List Char → List Char → Bool
  | [], _ => true
  | _ :: _, [] => false
  | a :: as, b :: bs =>
    if a.toNat < b.toNat then true
    else if a.toNat = b.toNat then lexLe as bs
    else false

/-- Whitespace characters recognised by Python's no-argument `str.split`. -/
def pyIsWS (c : Char) : Bool :=
  c == ' ' || c == '\t' || c == '\n' || c == '\x0d'

/-- Split a character list at every separator character, keeping empty
pieces (the behaviour of Python `str.split(sep)` with an explicit
separator). -/
def chSplitKeep (p : Char → Bool) : List Char → List (List Char)
  | [] => [[]]
  | c :: cs =>
    let r := chSplitKeep p cs
    if p c then [] :: r
    else
      match r with
      | h :: t => (c :: h) :: t
      | [] => [[c]]

/-- Python `str.split(':')`. -/
def pySplitColon (s : String) : List String :=
  (chSplitKeep (fun c => c == ':') s.data).map (fun l => (⟨l⟩ : String))

/-- Python no-argument `str.split()`: split on whitespace runs, dropping
empty pieces. -/
def pySplitWS (s : String) : List String :=
  ((chSplitKeep pyIsWS s.data).filter (fun l => !l.isEmpty)).map
    (fun l => (⟨l⟩ : String))

/-- Python `str.splitlines()` restricted to newline separators: like
splitting on every newline but with no empty trailing piece when the
string ends in a newline. -/
def pySplitLines (s : String) : List String :=
  let parts := chSplitKeep (fun c => c == '\n') s.data
  (match parts.getLast? with
   | some [] => parts.dropLast
   | _ => parts).map (fun l => (⟨l⟩ : String))

/-- Python `str.strip()`. -/
def pyStrip (s : String) : String :=
  ⟨((s.data.dropWhile pyIsWS).reverse.dropWhile pyIsWS).reverse⟩

/-! ## JSON values and queue definitions

The queue catalog is `json.loads` output: each queue definition is a dict
whose values (at the keys this script touches) are strings, `null`, or a
flat string-to-string dict (the `Options` mapping). -/

/-- A JSON value appearing inside a queue definition. -/
inductive JVal where
  | s (v : String)
  | null
  | obj (kvs : List (String × String))
deriving DecidableEq

/-- Python truthiness for the values a queue definition can hold. -/
def JVal.truthy : JVal → Bool
  | .s v => v ≠ ""
  | .null => false
  | .obj kvs => !kvs.isEmpty

/-- A queue definition: one JSON object of the catalog. -/
abbrev QueueDef := List (String × JVal)

/-- Python `dict.get(k)`: `none` models the Python `None` that results both
from a missing key and from a stored JSON `null`. -/
def QueueDef.get (q : QueueDef) (k : String) : Option JVal :=
  match q.find? (fun kv => kv.1 == k) with
  | some (_, .null) => none
  | some (_, v) => some v
  | none => none

/-- Truthiness of a `dict.get` result (`None` is falsy). -/
def optTruthyJ : Option JVal → Bool
  | some v => v.truthy
  | none => false

/-- Truthiness of an optional string (argparse arguments: absent or empty
strings are falsy). -/
def optTruthy : Option String → Bool
  | some s => s ≠ ""
  | none => false

/-- Python `x in l` where `l` is a list of strings and `x` is a
`dict.get` result: only a string value can be a member. -/
def valInStrList (v : Option JVal) (l : List String) : Bool :=
  match v with
  | some (.s d) => l.contains d
  | _ => false

/-! ## Effects, termination, and the program monad -/

/-- Observable actions of the script.  `log` covers `Logger.log` (syslog +
stdout), `showMessage` a `show_message` cocoaDialog box, `jamfPolicyRun` a
`jamf policy -event` invocation, `ldapQuery n` the n-th `ldapsearch`
invocation inside `user_ldap_groups`, `promptUser` the dropdown selection
dialog, and `lpadminRun` the spawned `lpadmin` registration command. -/
inductive Event where
  | log (msg : String)
  | showMessage (text : String)
  | jamfPolicyRun (trigger : String)
  | ldapQuery (n : Nat)
  | promptUser (items : List (Option JVal))
  | lpadminRun (cmd : List String)
deriving DecidableEq

/-- How a run can terminate early.  `quitted` is Python's `quit()`
(`SystemExit(None)`, process status 0), `exited c` is `sys.exit(c)`, and
`uncaught e` is an unhandled exception `e` (CPython then exits with
status 1 after printing a traceback). -/
inductive Term where
  | quitted
  | exited (code : Int)
  | uncaught (exn : String)
deriving DecidableEq

deriving instance DecidableEq for Except

/-- Process exit status produced by a termination. -/
def Term.exitCode : Term → Int
  | .quitted => 0
  | .exited c => c
  | .uncaught _ => 1

/-- Result of running a piece of the script: the events it emitted and
either its return value or the termination it raised. -/
structure PR (α : Type) where
  events : List Event
  res : Except Term α
deriving DecidableEq

instance : Monad PR where
  pure a := ⟨[], .ok a⟩
  bind x f :=
    match x.res with
    | .error t => ⟨x.events, .error t⟩
    | .ok a => ⟨x.events ++ (f a).events, (f a).res⟩

/-- Emit one event. -/
def tell (e : Event) : PR Unit := ⟨[e], .ok ()⟩

/-- Terminate the run. -/
def die {α : Type} (t : Term) : PR α := ⟨[], .error t⟩

/-- Raise an uncaught Python exception. -/
def dieU {α : Type} (exn : String) : PR α := ⟨[], .error (.uncaught exn)⟩

/-- Lift a pure Python expression that may raise. -/
def liftE {α : Type} (e : Except Term α) : PR α := ⟨[], e⟩

/-- The external world as seen by the script.  The modal dialog engine, the
deployment agent, the directory service and the spooler query are
spec-designated black-box collaborators; their behaviour is an input.
`lpadminLaunchOk` states whether spawning the registration command itself
succeeds (the one launch failure the spec's Queue Installer section
discusses), and `lpadminExitCode` is that command's own exit status, which
the script never inspects. -/
structure Env where
  fileExists : String → Bool
  policyOutput : String → String
  klistOk : Bool
  ldapDnResult : Except Int (List String)
  ldapGroupsResult : Except Int (List String)
  lpstatResult : Option String
  lpadminLaunchOk : Bool
  lpadminExitCode : Int
  cdPromptReturn : String

/-! ## Configuration template literals

The source file is a deploy-time template; `\x7bconfig[...]\x7d` strings
are placeholders substituted at build time.  They are kept as opaque
literal strings here.  The two messages that the script interpolates with
`%` are modelled as functions of the interpolated value. -/

def CDPATH : String := "\x7bconfig[cocoaDialog][path]\x7d"

def MSG_ERROR_UNDEFINED : String := "\x7bconfig[gui][messages][error_undefined]\x7d"

def MSG_NO_QUEUES : String := "\x7bconfig[gui][messages][error_no_queues_available]\x7d"

def MSG_DRIVER_FAILURE : String := "\x7bconfig[gui][messages][error_driver_failure]\x7d"

def MSG_UNABLE_MAP : String := "\x7bconfig[gui][messages][error_unable_map_queue]\x7d"

def MSG_LDAP_ERROR : String := "\x7bconfig[ldap][messages][error]\x7d"

def DEFAULT_DRIVER : String := "\x7bconfig[default_driver]\x7d"

def CD_INSTALL_TRIGGER : String := "\x7bconfig[cocoaDialog][install_trigger]\x7d"

/-- The deployed `error_preselected_queue` template interpolated with the
rejected queue name (the rendered template contains one `%s` slot). -/
def MSG_PRESELECTED (p : String) : String :=
  "\x7bconfig[gui][messages][error_preselected_queue]\x7d % " ++ p

/-- The deployed `success_queue_added` template interpolated with the
installed queue name. -/
def MSG_SUCCESS_ADDED (dn : String) : String :=
  "\x7bconfig[gui][messages][success_queue_added]\x7d % " ++ dn

/-! ## The embedded script functions -/

/-- Embedding of `error_and_exit`: show the generic error dialog (unless
suppressed), log, and `sys.exit(1)`. -/
def error_and_exit {α : Type} (no_cocoaDialog : Bool := false) : PR α :=
  ⟨(if no_cocoaDialog then [] else [Event.showMessage MSG_ERROR_UNDEFINED]) ++
    [Event.log "An error occurred which requires exiting this program."],
   .error (.exited 1)⟩

/-- Embedding of `run_jamf_policy`: run `jamf policy -event trigger`,
classify its combined output by two marker substrings, checking the
"no policy found" marker first.  The `quiet` flag only controls the
progress-bar dialog, which has no modelled effect. -/
def run_jamf_policy (env : Env) (trigger : String) (quiet : Bool := false) :
    PR Bool := do
  let _ := quiet
  tell (.jamfPolicyRun trigger)
  let policy_return := env.policyOutput trigger
  if containsSub policy_return "No policies were found for the" then do
    tell (.log ("Unable to run Jamf policy via trigger " ++ trigger))
    pure false
  else if containsSub policy_return "Submitting log to" then do
    tell (.log ("Successfully ran Jamf policy via trigger " ++ trigger))
    pure true
  else
    pure false

/-- Embedding of `check_for_cocoadialog`. -/
def check_for_cocoadialog (env : Env) : PR Bool :=
  if !env.fileExists CDPATH then run_jamf_policy env CD_INSTALL_TRIGGER true
  else pure true

/-- Loop body of `get_currently_mapped_queues`: take `line.split()[1]`
from each line; a line with fewer than two whitespace-delimited tokens
raises an uncaught `IndexError`. -/
def secondTokens : List String → PR (List String)
  | [] => pure []
  | line :: rest =>
    match (pySplitWS line).get? 1 with
    | none => dieU "IndexError"
    | some t => do
      let ts ← secondTokens rest
      pure (t :: ts)

/-- Embedding of `get_currently_mapped_queues`: `lpstat -p` failing with a
`CalledProcessError` is caught (no queues); otherwise the second token of
every line of its output is collected. -/
def get_currently_mapped_queues (env : Env) : PR (List String) := do
  tell (.log "Gathering list of currently mappped queues")
  match env.lpstatResult with
  | none => do
    tell (.log "No current print queues found")
    pure []
  | some lpstat_result =>
    if lpstat_result = "" then pure []
    else secondTokens (pySplitLines lpstat_result)

/-! ## Eligibility filter (`build_printer_queue_list`) -/

/-- The attribute-filter gate `if filter_key and queue.get(filter_key):`,
returning the attribute value when both are truthy. -/
def filterGate (filter_key : Option String) (queue : QueueDef) : Option JVal :=
  match filter_key with
  | none => none
  | some k =>
    if k = "" then none
    else
      match queue.get k with
      | none => none
      | some v => if v.truthy then some v else none

/-- Python `filter_value in attribute_value` where the attribute value is
truthy: substring test on a string, key-membership test on a dict, and a
`TypeError` when `filter_value` is `None` against a string. -/
def pyInTest (filter_value : Option String) : JVal → Except Term Bool
  | .s a =>
    match filter_value with
    | none => .error (.uncaught "TypeError")
    | some v => .ok (containsSub a v)
  | .obj kvs =>
    .ok (match filter_value with
         | none => false
         | some v => kvs.any (fun kv => kv.1 == v))
  | .null => .error (.uncaught "TypeError")

/-- Group gate and append: skip if `ADFilterGroup` is truthy and not among
the user's groups, otherwise contribute `queue.get('DisplayName')`. -/
def groupStep (user_groups : List String) (queue : QueueDef) :
    Except Term (Option (Option JVal)) :=
  if optTruthyJ (queue.get "ADFilterGroup") then
    if valInStrList (queue.get "ADFilterGroup") user_groups then
      .ok (some (queue.get "DisplayName"))
    else .ok none
  else .ok (some (queue.get "DisplayName"))

/-- One iteration of the `build_printer_queue_list` loop: `.ok none` means
the queue was skipped, `.ok (some d)` that `d` was appended to the display
list. -/
def queueStep (current_queues : List String) (filter_key filter_value : Option String)
    (user_groups : List String) (queue : QueueDef) :
    Except Term (Option (Option JVal)) :=
  if valInStrList (queue.get "DisplayName") current_queues then .ok none
  else if valInStrList (queue.get "CUPSName") current_queues then .ok none
  else
    match filterGate filter_key queue with
    | some av =>
      match pyInTest filter_value av with
      | .error t => .error t
      | .ok b => if b then groupStep user_groups queue else .ok none
    | none => groupStep user_groups queue

/-- The full loop over the catalog's definitions. -/
def buildLoop (current_queues : List String) (filter_key filter_value : Option String)
    (user_groups : List String) : List QueueDef → Except Term (List (Option JVal))
  | [] => .ok []
  | q :: rest =>
    match queueStep current_queues filter_key filter_value user_groups q with
    | .error t => .error t
    | .ok none => buildLoop current_queues filter_key filter_value user_groups rest
    | .ok (some d) =>
      match buildLoop current_queues filter_key filter_value user_groups rest with
      | .error t => .error t
      | .ok ds => .ok (d :: ds)

/-- Sort rank of a display-list entry under Python 2 comparison:
`None` precedes every other value and dicts precede strings. -/
def pyRank : Option JVal → Nat
  | none => 0
  | some .null => 0
  | some (.obj _) => 1
  | some (.s _) => 2

/-- String key used to order display-list entries of equal rank.  For
strings this is the string itself (Python compares code points); for dicts
it is an encoding of the key/value pairs — an arbitrary but total stand-in
for Python 2's dict ordering, which no string-valued catalog exercises. -/
def pyKeyStr : Option JVal → String
  | none => ""
  | some .null => ""
  | some (.obj kvs) =>
    kvs.foldr (fun kv acc => kv.1 ++ "\x00" ++ kv.2 ++ "\x00" ++ acc) ""
  | some (.s v) => v

/-- The comparison used to model Python 2's `sorted` over the display
list: by rank, then lexicographically by key string. -/
def pyLe (a b : Option JVal) : Bool :=
  Nat.blt (pyRank a) (pyRank b) ||
    (pyRank a == pyRank b && lexLe (pyKeyStr a).data (pyKeyStr b).data)

/-- Python `sorted(display_list)`: `sorted` is a stable sort, and every
stable sort of a list under a total transitive comparison yields the same
list, so insertion sort is a faithful model. -/
def pySorted (l : List (Option JVal)) : List (Option JVal) :=
  l.insertionSort (fun a b => pyLe a b = true)

/-- Embedding of `build_printer_queue_list`.  The catalog argument is
`QUEUE_DEFINITIONS.values()`.  An empty display list logs, shows the
no-queues-available dialog and `quit()`s; otherwise the sorted list is
returned. -/
def build_printer_queue_list (current_queues : List String)
    (filter_key filter_value : Option String) (user_groups : List String)
    (defs : List QueueDef) : PR (List (Option JVal)) :=
  match buildLoop current_queues filter_key filter_value user_groups defs with
  | .error t => ⟨[], .error t⟩
  | .ok [] =>
    ⟨[.log "No currently-unmapped queues are available", .showMessage MSG_NO_QUEUES],
     .error .quitted⟩
  | .ok ds => ⟨[], .ok (pySorted ds)⟩

/-! ## Group membership resolver (`user_ldap_groups`) -/

/-- Scan the dn-query output for the first line starting with `dn: ` and
extract `line.split(':')[1].strip()`, defaulting to the empty string. -/
def extractDn : List String → String
  | [] => ""
  | line :: rest =>
    if pyStartsWith line "dn: " then pyStrip ((pySplitColon line).getD 1 "")
    else extractDn rest

/-- Collect `line.split(':')[1].strip()` from every line starting with
`cn: ` in the group-query output. -/
def extractCns (lines : List String) : List String :=
  (lines.filter (fun l => pyStartsWith l "cn: ")).map
    (fun l => pyStrip ((pySplitColon l).getD 1 ""))

/-- Embedding of `user_ldap_groups`.  Without a Kerberos ticket the empty
list is returned before any directory query.  The first `ldapsearch` (the
identity lookup) is wrapped in `try`: a `CalledProcessError` is classified
by return code 254 (authentication) versus other codes, then the ldap
error dialog is shown and the run `quit()`s.  The second `ldapsearch` (the
group lookup) is not wrapped: its failure propagates as an uncaught
`CalledProcessError`.  A `None` username would raise a `TypeError` while
building the search filter string. -/
def user_ldap_groups (env : Env) (username : Option String) : PR (List String) := do
  tell (.log "Generating list of user\x27s AD groups")
  if !env.klistOk then do
    tell (.log "Kerberos ticket not found. AD group filtering disabled.")
    pure []
  else
    match username with
    | none => dieU "TypeError"
    | some _ => do
      tell (.ldapQuery 1)
      match env.ldapDnResult with
      | .error rc => do
        if rc = 254 then
          tell (.log "Encountered an authentication error while searching ldap.")
        else
          tell (.log ("Unknown error searching ldap. (Error code: " ++ toString rc ++ ")"))
        tell (.showMessage MSG_LDAP_ERROR)
        die .quitted
      | .ok dn => do
        let _ := extractDn dn
        tell (.ldapQuery 2)
        match env.ldapGroupsResult with
        | .error _ => dieU "CalledProcessError"
        | .ok groups => pure (extractCns groups)

/-! ## Selection provider (`prompt_queue`) -/

/-- Embedding of `prompt_queue`: show the dropdown dialog; a reply other
than the `Cancel` sentinel yields line 2 of the reply (an `IndexError`
when absent); the sentinel logs the cancellation and returns `False`,
modelled as `none`. -/
def prompt_queue (env : Env) (list_of_queues : List (Option JVal)) :
    PR (Option String) := do
  tell (.log "Prompting user to select desired queue")
  tell (.promptUser list_of_queues)
  if env.cdPromptReturn ≠ "Cancel\n" then
    match (pySplitLines env.cdPromptReturn).get? 1 with
    | none => dieU "IndexError"
    | some selected_queue => do
      tell (.log ("User selected queue " ++ selected_queue))
      pure (some selected_queue)
  else do
    tell (.log "User canceled queue selection")
    pure none

/-! ## Driver resolver and queue installer -/

/-- Embedding of `install_drivers`. -/
def install_drivers (env : Env) (trigger : String) : PR Bool := do
  tell (.log ("Attempting to install drivers via policy trigger " ++ trigger))
  run_jamf_policy env trigger

/-- Embedding of `search_for_driver`: when the driver file is absent, run
the install policy once; on failure show the driver-failure dialog, log,
and `quit()`. -/
def search_for_driver (env : Env) (driver trigger : String) : PR Unit := do
  if !env.fileExists driver then do
    tell (.log ("The driver was not found at " ++ driver))
    let installed ← install_drivers env trigger
    if !installed then do
      tell (.showMessage MSG_DRIVER_FAILURE)
      tell (.log "Quitting program")
      die .quitted
    else pure ()
  else pure ()

/-- Python `d[k]` on a queue definition: `KeyError` when the key is
missing (a stored JSON `null` is returned as a value, unlike `get`). -/
def QueueDef.index (q : QueueDef) (k : String) : Except Term JVal :=
  match q.find? (fun kv => kv.1 == k) with
  | some (_, v) => .ok v
  | none => .error (.uncaught "KeyError")

/-- Python `d[k]` where the surrounding expression requires a string
(string concatenation or a subprocess argument): a non-string value would
raise a `TypeError`. -/
def QueueDef.indexStr (q : QueueDef) (k : String) : Except Term String :=
  match q.index k with
  | .error t => .error t
  | .ok (.s v) => .ok v
  | .ok _ => .error (.uncaught "TypeError")

/-- Python `' '.join(cmd)`. -/
def joinSpace : List String → String
  | [] => ""
  | [a] => a
  | a :: rest => a ++ " " ++ joinSpace rest

/-- Registration half of `add_queue` (from the `cmd` construction on):
the `lpadmin` command is built with one `-o key=value` pair per `Options`
entry, then spawned.  A spawn failure raises an uncaught `OSError`: the
`except subprocess.CalledProcessError` handler around `communicate()` can
never fire because neither `Popen` nor `communicate` raises that
exception, so the unable-to-map dialog is dead code.  A successful spawn
logs, shows the success dialog naming the queue and `quit()`s — the exit
status of `lpadmin` itself is never read. -/
def add_queue_register (env : Env) (q : QueueDef) (q_driver : String) :
    PR Unit := do
  let dn ← liftE (q.indexStr "DisplayName")
  let loc ← liftE (q.indexStr "Location")
  let uri ← liftE (q.indexStr "URI")
  let cmd0 := ["/usr/sbin/lpadmin", "-p", dn, "-L", loc, "-E", "-v", uri, "-P", q_driver]
  let options ← liftE (q.index "Options")
  let cmd ←
    if options.truthy then
      match options with
      | .obj kvs =>
        pure (cmd0 ++ kvs.foldr (fun kv acc => "-o" :: (kv.1 ++ "=" ++ kv.2) :: acc) [])
      | _ => dieU "AttributeError"
    else pure cmd0
  if env.lpadminLaunchOk then do
    tell (.lpadminRun cmd)
    tell (.log ("Excuting command: " ++ joinSpace cmd))
    tell (.log ("Queue " ++ dn ++ " successfully mapped"))
    tell (.showMessage (MSG_SUCCESS_ADDED dn))
    die .quitted
  else
    dieU "OSError"

/-- Embedding of `add_queue`.  The queue dict is fetched by its catalog
key (a missing key is an uncaught `KeyError`); the driver is resolved —
vendor driver via `search_for_driver`, or the configured generic driver —
and registration proceeds via `add_queue_register`. -/
def add_queue (env : Env) (catalog : List (String × QueueDef)) (queue : String) :
    PR Unit := do
  let q ← liftE (match catalog.find? (fun kv => kv.1 == queue) with
                 | some (_, v) => .ok v
                 | none => .error (.uncaught "KeyError"))
  let driver ← liftE (q.index "Driver")
  let q_driver ←
    if driver.truthy then do
      let dn0 ← liftE (q.indexStr "DisplayName")
      tell (.log ("Queue " ++ dn0 ++ " requires a vendor driver"))
      match driver with
      | .s d => do
        let trig ← liftE (q.indexStr "DriverTrigger")
        search_for_driver env d trig
        pure d
      | _ => dieU "TypeError"
    else do
      let dn0 ← liftE (q.indexStr "DisplayName")
      tell (.log (dn0 ++ " uses a generic driver"))
      pure DEFAULT_DRIVER
  add_queue_register env q q_driver

/-! ## Entry point (`main`) -/

/-- The argparse-provided arguments relevant to the workflow (all
positional and optional; Jamf passes empty strings for unused slots, and
the script treats falsy values as absent). -/
structure Args where
  jamf_user : Option String
  preselected_queue : Option String
  filter_key : Option String
  filter_value : Option String

/-- Python `p in available_queues` for the preselection check: the string
argument is compared against the display-list entries. -/
def pyStrMem (p : String) (l : List (Option JVal)) : Bool :=
  l.any (fun x => x == some (.s p))

/-- Embedding of `main`: resolve groups, query mapped queues, build the
eligible list, then either validate the preselection (an ineligible value
shows the operator error naming it and runs `error_and_exit`) or ensure
cocoaDialog and prompt; a truthy selection is installed via `add_queue`,
a falsy one falls through to a normal return. -/
def main (env : Env) (args : Args) (catalog : List (String × QueueDef)) :
    PR Unit := do
  let user_groups ← user_ldap_groups env args.jamf_user
  let currently_mapped_queues ← get_currently_mapped_queues env
  let available_queues ← build_printer_queue_list currently_mapped_queues
      args.filter_key args.filter_value user_groups (catalog.map (fun kv => kv.2))
  let selected_queue ←
    if optTruthy args.preselected_queue then
      let p := args.preselected_queue.getD ""
      if pyStrMem p available_queues then pure (some p)
      else do
        tell (.showMessage (MSG_PRESELECTED p))
        error_and_exit
    else do
      let cd ← check_for_cocoadialog env
      if !cd then error_and_exit
      else prompt_queue env available_queues
  if optTruthy selected_queue then add_queue env catalog (selected_queue.getD "")
  else pure ()

/-- Exit status of a finished `main` invocation: a normal return exits the
interpreter with status 0. -/
def finalExit (x : PR Unit) : Int :=
  match x.res with
  | .ok _ => 0
  | .error t => t.exitCode

/-! ## Concrete fixtures and event predicates -/

/-- A baseline environment for concrete runs. -/
def env0 : Env where
  fileExists := fun _ => true
  policyOutput := fun _ => ""
  klistOk := false
  ldapDnResult := .ok []
  ldapGroupsResult := .ok []
  lpstatResult := none
  lpadminLaunchOk := true
  lpadminExitCode := 0
  cdPromptReturn := "Cancel\n"

/-- Scenario A catalog entry: a queue with a generic (null) driver. -/
def qHPColor : QueueDef := [("DisplayName", .s "HP-Color"), ("Driver", .null)]

/-- Scenario A catalog entry: a minimal queue. -/
def qHPBW : QueueDef := [("DisplayName", .s "HP-BW")]

/-- True when an event list contains no `lpadmin` spawn. -/
def noRegistration (evs : List Event) : Bool :=
  evs.all (fun e => match e with | .lpadminRun _ => false | _ => true)

/-- True when an event list contains neither an `lpadmin` spawn nor the
selection prompt. -/
def noInstallOrPrompt (evs : List Event) : Bool :=
  evs.all (fun e =>
    match e with
    | .lpadminRun _ => false
    | .promptUser _ => false
    | _ => true)

/-- True when an event list contains no dialog at all. -/
def noDialog (evs : List Event) : Bool :=
  evs.all (fun e => match e with | .showMessage _ => false | _ => true)

/-- An environment whose policy output carries both markers. -/
def envBothMarkers : Env :=
  { env0 with
      policyOutput := fun _ =>
        "No policies were found for the trigger. Submitting log to https://jss" }

/-- An environment where the identity lookup succeeds but the
group-membership lookup fails. -/
def envLdapSecondFail : Env :=
  { env0 with
      klistOk := true
      ldapDnResult := .ok ["dn: CN=u,DC=x"]
      ldapGroupsResult := .error 1 }

/-- A catalog entry requiring a vendor driver. -/
def qVendor : QueueDef :=
  [("DisplayName", .s "Q"), ("Driver", .s "/opt/drv/x.ppd"),
   ("DriverTrigger", .s "drv"), ("Location", .s "L"), ("URI", .s "u://x"),
   ("Options", .null)]

/-- A one-entry catalog around `qVendor`. -/
def catVendor : List (String × QueueDef) := [("Q", qVendor)]

/-- An environment where no file exists and the deployment agent reports
that no policy was found. -/
def envDriverFail : Env :=
  { env0 with
      fileExists := fun _ => false
      policyOutput := fun _ => "No policies were found for the \x22drv\x22 trigger." }

/-- A catalog entry using the generic driver, with one option. -/
def qGeneric : QueueDef :=
  [("DisplayName", .s "Q"), ("Driver", .null), ("Location", .s "L"),
   ("URI", .s "u://x"), ("Options", .obj [("a", "1")])]

/-- A one-entry catalog around `qGeneric`. -/
def catGeneric : List (String × QueueDef) := [("Q", qGeneric)]

/-- The registration command built for `qGeneric`. -/
def lpadminCmdQ : List String :=
  ["/usr/sbin/lpadmin", "-p", "Q", "-L", "L", "-E", "-v", "u://x", "-P",
   DEFAULT_DRIVER, "-o", "a=1"]

/-- The generic fatal error log line. -/
def FATAL_LOG : String := "An error occurred which requires exiting this program."

/-- The Scenario-A style catalog with two generic-driver queues. -/
def catTwo : List (String × QueueDef) :=
  [("A", [("DisplayName", .s "A"), ("Driver", .null), ("Location", .s "L"),
          ("URI", .s "u://x"), ("Options", .null)]),
   ("B", [("DisplayName", .s "B"), ("Driver", .null), ("Location", .s "L"),
          ("URI", .s "u://x"), ("Options", .null)])]

/-- Arguments carrying an ineligible preselection. -/
def argsPre : Args :=
  { jamf_user := some "u", preselected_queue := some "Z",
    filter_key := none, filter_value := none }

/-- Arguments with no preselection. -/
def argsInteractive : Args :=
  { jamf_user := some "u", preselected_queue := none,
    filter_key := none, filter_value := none }

/-- An environment whose spooler output has a one-token line. -/
def envLpstatCrash : Env := { env0 with lpstatResult := some "printers\n" }

/-- True when no event is the generic fatal-error log line. -/
def noFatalLog (evs : List Event) : Bool :=
  evs.all (fun e => !(e == .log FATAL_LOG))


/-! ## Monad computation lemmas -/

@[simp] theorem PR_bind_mk_ok {α β : Type} (evs : List Event) (a : α) (f : α → PR β) :
    (⟨evs, .ok a⟩ : PR α) >>= f = ⟨evs ++ (f a).events, (f a).res⟩ := rfl

@[simp] theorem PR_bind_mk_error {α β : Type} (evs : List Event) (t : Term) (f : α → PR β) :
    (⟨evs, .error t⟩ : PR α) >>= f = ⟨evs, .error t⟩ := rfl

@[simp] theorem PR_bind_events {α β : Type} (x : PR α) (f : α → PR β) :
    (x >>= f).events = match x.res with
      | .error _ => x.events
      | .ok a => x.events ++ (f a).events := by
  rcases x with ⟨evs, r⟩
  cases r <;> rfl

@[simp] theorem PR_bind_res {α β : Type} (x : PR α) (f : α → PR β) :
    (x >>= f).res = match x.res with
      | .error t => .error t
      | .ok a => (f a).res := by
  rcases x with ⟨evs, r⟩
  cases r <;> rfl

@[simp] theorem PR_pure_def {α : Type} (a : α) : (pure a : PR α) = ⟨[], .ok a⟩ := rfl

@[simp] theorem tell_def (e : Event) : tell e = ⟨[e], .ok ()⟩ := rfl

@[simp] theorem die_def {α : Type} (t : Term) : (die t : PR α) = ⟨[], .error t⟩ := rfl

@[simp] theorem dieU_def {α : Type} (s : String) :
    (dieU s : PR α) = ⟨[], .error (.uncaught s)⟩ := rfl

@[simp] theorem liftE_def {α : Type} (e : Except Term α) : liftE e = ⟨[], e⟩ := rfl

/-! ## The display-list order is total and transitive -/

theorem lexLe_total (a b : List Char) : lexLe a b = true ∨ lexLe b a = true := by
  induction a generalizing b with
  | nil => left; rfl
  | cons x xs ih =>
    cases b with
    | nil => right; rfl
    | cons y ys =>
      rcases Nat.lt_trichotomy x.toNat y.toNat with h | h | h
      · left; simp [lexLe, h]
      · rcases ih ys with h2 | h2
        · left; simp [lexLe, h, h2]
        · right; simp [lexLe, h.symm, h2]
      · right; simp [lexLe, h]

theorem lexLe_trans :
    ∀ a b c : List Char, lexLe a b = true → lexLe b c = true → lexLe a c = true
  | [], _, _, _, _ => rfl
  | _ :: _, [], _, hab, _ => by cases hab
  | _ :: _, _ :: _, [], _, hbc => by cases hbc
  | x :: xs, y :: ys, z :: zs, hab, hbc => by
    simp only [lexLe] at hab hbc ⊢
    by_cases h1 : x.toNat < y.toNat <;> by_cases h2 : y.toNat < z.toNat <;>
      simp only [h1, h2, if_true, if_false] at hab hbc
    · have hxz : x.toNat < z.toNat := Nat.lt_trans h1 h2
      simp [hxz]
    · by_cases h2e : y.toNat = z.toNat
      · have hxz : x.toNat < z.toNat := h2e ▸ h1
        simp [hxz]
      · simp [h2e] at hbc
    · by_cases h1e : x.toNat = y.toNat
      · have hxz : x.toNat < z.toNat := h1e ▸ h2
        simp [hxz]
      · simp [h1e] at hab
    · by_cases h1e : x.toNat = y.toNat <;> by_cases h2e : y.toNat = z.toNat
      · have hxz : x.toNat = z.toNat := h1e.trans h2e
        have hlt : ¬ x.toNat < z.toNat := by omega
        have hab2 : lexLe xs ys = true := by simpa [h1e] using hab
        have hbc2 : lexLe ys zs = true := by simpa [h2e] using hbc
        simp [hlt, hxz, lexLe_trans xs ys zs hab2 hbc2]
      · simp [h2e] at hbc
      · simp [h1e] at hab
      · simp [h1e] at hab

theorem pyLe_total (a b : Option JVal) : pyLe a b = true ∨ pyLe b a = true := by
  unfold pyLe
  rcases Nat.lt_trichotomy (pyRank a) (pyRank b) with h | h | h
  · left; simp [Nat.blt_eq, h]
  · rcases lexLe_total (pyKeyStr a).data (pyKeyStr b).data with h2 | h2
    · left; simp [h, h2]
    · right; simp [h, h2]
  · right; simp [Nat.blt_eq, h]

theorem pyLe_trans (a b c : Option JVal)
    (hab : pyLe a b = true) (hbc : pyLe b c = true) : pyLe a c = true := by
  unfold pyLe at hab hbc ⊢
  simp only [Bool.or_eq_true, Bool.and_eq_true, Nat.blt_eq, beq_iff_eq] at hab hbc ⊢
  rcases hab with h1 | ⟨h1, h1l⟩ <;> rcases hbc with h2 | ⟨h2, h2l⟩
  · left; omega
  · left; omega
  · left; omega
  · right; exact ⟨by omega, lexLe_trans _ _ _ h1l h2l⟩

instance : IsTotal (Option JVal) (fun a b => pyLe a b = true) :=
  ⟨fun a b => pyLe_total a b⟩

instance : IsTrans (Option JVal) (fun a b => pyLe a b = true) :=
  ⟨fun a b c => pyLe_trans a b c⟩

theorem sorted_pySorted (l : List (Option JVal)) :
    List.Sorted (fun a b => pyLe a b = true) (pySorted l) :=
  List.sorted_insertionSort _ l

theorem mem_pySorted {a : Option JVal} {l : List (Option JVal)} :
    a ∈ pySorted l ↔ a ∈ l :=
  (List.perm_insertionSort _ l).mem_iff

/-! ## Eligibility-filter lemmas -/

theorem build_res_ok {current : List String} {fk fv : Option String}
    {groups : List String} {defs : List QueueDef} {l : List (Option JVal)}
    (h : (build_printer_queue_list current fk fv groups defs).res = .ok l) :
    ∃ ds, buildLoop current fk fv groups defs = .ok ds ∧ l = pySorted ds := by
  unfold build_printer_queue_list at h
  cases hb : buildLoop current fk fv groups defs with
  | error t => simp [hb] at h
  | ok ds =>
    cases ds with
    | nil => simp [hb] at h
    | cons d rest =>
      simp only [hb] at h
      exact ⟨d :: rest, rfl, by injection h with h2; exact h2.symm⟩

theorem groupStep_some {groups : List String} {q : QueueDef} {x : Option JVal}
    (h : groupStep groups q = .ok (some x)) : x = q.get "DisplayName" := by
  unfold groupStep at h
  by_cases hg : optTruthyJ (q.get "ADFilterGroup") = true
  · simp only [hg, if_true] at h
    by_cases hm : valInStrList (q.get "ADFilterGroup") groups = true
    · simp only [hm, if_true] at h
      injection h with h2
      injection h2 with h3
      exact h3.symm
    · simp [hm] at h
  · simp only [hg, if_false] at h
    injection h with h2
    injection h2 with h3
    exact h3.symm

theorem groupStep_pass {groups : List String} {q : QueueDef}
    (hg : optTruthyJ (q.get "ADFilterGroup") = false ∨
          valInStrList (q.get "ADFilterGroup") groups = true) :
    groupStep groups q = .ok (some (q.get "DisplayName")) := by
  unfold groupStep
  rcases hg with hg | hg
  · simp [hg]
  · by_cases h2 : optTruthyJ (q.get "ADFilterGroup") = true <;> simp [h2, hg]

theorem queueStep_some {current : List String} {fk fv : Option String}
    {groups : List String} {q : QueueDef} {x : Option JVal}
    (h : queueStep current fk fv groups q = .ok (some x)) :
    x = q.get "DisplayName" ∧
    valInStrList (q.get "DisplayName") current = false ∧
    valInStrList (q.get "CUPSName") current = false := by
  unfold queueStep at h
  by_cases h1 : valInStrList (q.get "DisplayName") current = true
  · simp [h1] at h
  · by_cases h2 : valInStrList (q.get "CUPSName") current = true
    · simp [h1, h2] at h
    · simp only [h1, h2, if_false, Bool.not_eq_true] at h ⊢
      refine ⟨?_, by simp [h1], by simp [h2]⟩
      cases hf : filterGate fk q with
      | none => simp only [hf] at h; exact groupStep_some h
      | some av =>
        simp only [hf] at h
        cases ht : pyInTest fv av with
        | error t => simp [ht] at h
        | ok b =>
          simp only [ht] at h
          cases b with
          | false => simp at h
          | true => simp only [if_true] at h; exact groupStep_some h

theorem mem_buildLoop {current : List String} {fk fv : Option String}
    {groups : List String} {x : Option JVal} :
    ∀ {defs : List QueueDef} {l : List (Option JVal)},
    buildLoop current fk fv groups defs = .ok l → x ∈ l →
    ∃ q, q ∈ defs ∧ queueStep current fk fv groups q = .ok (some x) := by
  intro defs
  induction defs with
  | nil =>
    intro l h hx
    unfold buildLoop at h
    injection h with h2
    rw [← h2] at hx
    cases hx
  | cons q rest ih =>
    intro l h hx
    unfold buildLoop at h
    cases hs : queueStep current fk fv groups q with
    | error t => simp [hs] at h
    | ok o =>
      simp only [hs] at h
      cases o with
      | none =>
        obtain ⟨q2, hq2, hstep⟩ := ih h hx
        exact ⟨q2, List.mem_cons_of_mem _ hq2, hstep⟩
      | some d =>
        cases hb : buildLoop current fk fv groups rest with
        | error t => simp [hb] at h
        | ok ds =>
          simp only [hb] at h
          injection h with h2
          rw [← h2] at hx
          rcases List.mem_cons.mp hx with hx1 | hx2
          · exact ⟨q, List.mem_cons_self _ _, by rw [hs, hx1]⟩
          · obtain ⟨q2, hq2, hstep⟩ := ih hb hx2
            exact ⟨q2, List.mem_cons_of_mem _ hq2, hstep⟩

theorem valInStrList_true {k : String} {q : QueueDef} {d : String}
    {cur : List String} (hget : q.get k = some (.s d)) (hmem : d ∈ cur) :
    valInStrList (q.get k) cur = true := by
  rw [hget]
  simpa [valInStrList] using hmem

/-! ## Shared concrete fixtures -/

/-! ## Claim C1 -/

/-- C1: for every catalog (whose definitions carry pairwise distinct
DisplayNames, the spec's data-model invariant), installed set, filter and
group list, the eligible list returned by `build_printer_queue_list`
contains no DisplayName of a definition whose DisplayName is in the
installed set, nor of a definition whose CUPSName is in the installed
set. -/
theorem c1_no_installed_names
    (current : List String) (fk fv : Option String) (groups : List String)
    (defs : List QueueDef) (q : QueueDef) (l : List (Option JVal))
    (hq : q ∈ defs)
    (huniq : ∀ q2 ∈ defs, q2.get "DisplayName" = q.get "DisplayName" → q2 = q)
    (hinst : (∃ d, q.get "DisplayName" = some (.s d) ∧ d ∈ current) ∨
             (∃ c, q.get "CUPSName" = some (.s c) ∧ c ∈ current))
    (h : (build_printer_queue_list current fk fv groups defs).res = .ok l) :
    q.get "DisplayName" ∉ l := by
  intro hmem
  obtain ⟨ds, hds, hl⟩ := build_res_ok h
  rw [hl] at hmem
  obtain ⟨q2, hq2, hstep⟩ := mem_buildLoop hds (mem_pySorted.mp hmem)
  obtain ⟨hx, hd, hc⟩ := queueStep_some hstep
  have heq : q2 = q := huniq q2 hq2 hx.symm
  subst heq
  rcases hinst with ⟨d, hgd, hdm⟩ | ⟨c, hgc, hcm⟩
  · rw [valInStrList_true hgd hdm] at hd; cases hd
  · rw [valInStrList_true hgc hcm] at hc; cases hc

/-- Witness for C1 at the spec's Scenario A: with `HP-BW` installed the
eligible list is exactly `HP-Color`, and `HP-BW` is absent from it. -/
theorem c1_no_installed_names_witness :
    qHPBW ∈ [qHPColor, qHPBW] ∧
    (build_printer_queue_list ["HP-BW"] none none [] [qHPColor, qHPBW]).res
      = .ok [some (.s "HP-Color")] ∧
    QueueDef.get qHPBW "DisplayName" ∉ [some (.s "HP-Color")] :=
  ⟨by decide, by decide,
   c1_no_installed_names ["HP-BW"] none none [] [qHPColor, qHPBW] qHPBW
     [some (.s "HP-Color")] (by decide) (by decide)
     (Or.inl ⟨"HP-BW", by decide, by decide⟩) (by decide)⟩

/-! ## Claim C5 -/

/-- C5 counterexample: a definition that does have attribute `K` — with
the empty-string value — is retained even though `"x"` is not a substring
of that value, because the source gates the filter on the truthiness of
`queue.get(filter_key)` and the empty string is falsy.  This refutes the
claimed "retains a definition having attribute K iff V is a substring of
its value". -/
theorem c5_counterexample :
    QueueDef.get [("DisplayName", JVal.s "P"), ("K", JVal.s "")] "K"
        = some (.s "") ∧
    containsSub "" "x" = false ∧
    (build_printer_queue_list [] (some "K") (some "x") []
        [[("DisplayName", .s "P"), ("K", .s "")]]).res = .ok [some (.s "P")] :=
  ⟨by decide, by decide, by decide⟩

/-- Helper: `build_printer_queue_list` over a single-definition catalog,
expressed through `queueStep`. -/
theorem build_single (current : List String) (fk fv : Option String)
    (groups : List String) (q : QueueDef) :
    build_printer_queue_list current fk fv groups [q] =
      match queueStep current fk fv groups q with
      | .error t => ⟨[], .error t⟩
      | .ok none =>
        ⟨[.log "No currently-unmapped queues are available",
          .showMessage MSG_NO_QUEUES], .error .quitted⟩
      | .ok (some d) => ⟨[], .ok [d]⟩ := by
  unfold build_printer_queue_list buildLoop buildLoop
  cases hs : queueStep current fk fv groups q with
  | error t => rfl
  | ok o => cases o <;> rfl

/-- C5 amended: with a filter pair `(K,V)` given (`K` truthy) and all
other eligibility checks passing, a definition whose attribute values at
`K` are strings (or absent) is retained by `build_printer_queue_list`
precisely when every non-empty string it exposes at `K` has `V` as a
substring: definitions lacking `K`, or exposing a falsy (empty) value at
`K`, are retained unconditionally; a definition with a non-empty value at
`K` is retained iff `V` is a substring of that value. -/
theorem c5_filter_amended (current : List String) (k v : String)
    (groups : List String) (q : QueueDef)
    (hk : ¬ k = "")
    (hd : valInStrList (q.get "DisplayName") current = false)
    (hc : valInStrList (q.get "CUPSName") current = false)
    (hg : optTruthyJ (q.get "ADFilterGroup") = false ∨
          valInStrList (q.get "ADFilterGroup") groups = true)
    (hattr : q.get k = none ∨ ∃ a, q.get k = some (.s a)) :
    (build_printer_queue_list current (some k) (some v) groups [q]).res
        = .ok [q.get "DisplayName"]
    ↔ (∀ a, q.get k = some (.s a) → ¬ a = "" → containsSub a v = true) := by
  have hgs := groupStep_pass hg
  have hb := build_single current (some k) (some v) groups q
  have hd1 : ¬ valInStrList (q.get "DisplayName") current = true := by simp [hd]
  have hc1 : ¬ valInStrList (q.get "CUPSName") current = true := by simp [hc]
  rcases hattr with hattr | ⟨a, hattr⟩
  · have hfg : filterGate (some k) q = none := by simp [filterGate, hk, hattr]
    have hq : queueStep current (some k) (some v) groups q
        = .ok (some (q.get "DisplayName")) := by
      unfold queueStep
      simp [hd1, hc1, hfg, hgs]
    rw [hb, hq]
    simp [hattr]
  · by_cases ha : a = ""
    · subst ha
      have hfg : filterGate (some k) q = none := by
        simp [filterGate, hk, hattr, JVal.truthy]
      have hq : queueStep current (some k) (some v) groups q
          = .ok (some (q.get "DisplayName")) := by
        unfold queueStep
        simp [hd1, hc1, hfg, hgs]
      rw [hb, hq]
      simp [hattr]
    · have hfg : filterGate (some k) q = some (.s a) := by
        simp [filterGate, hk, hattr, JVal.truthy, ha]
      cases hcv : containsSub a v with
      | true =>
        have hq : queueStep current (some k) (some v) groups q
            = .ok (some (q.get "DisplayName")) := by
          unfold queueStep
          simp [hd1, hc1, hfg, pyInTest, hcv, hgs]
        rw [hb, hq]
        simp only [true_iff]
        intro a2 hget2 _
        rw [hattr] at hget2
        injection hget2 with h2
        injection h2 with h3
        rw [← h3]
        exact hcv
      | false =>
        have hq : queueStep current (some k) (some v) groups q = .ok none := by
          unfold queueStep
          simp [hd1, hc1, hfg, pyInTest, hcv]
        rw [hb, hq]
        constructor
        · intro h2; cases h2
        · intro h2
          have := h2 a hattr ha
          rw [hcv] at this
          cases this

/-- Witness for C5 amended at a concrete matching and failing filter. -/
theorem c5_filter_amended_witness :
    ((build_printer_queue_list [] (some "K") (some "b") []
        [[("DisplayName", .s "P"), ("K", .s "ab")]]).res
      = .ok [QueueDef.get [("DisplayName", JVal.s "P"), ("K", JVal.s "ab")] "DisplayName"]
    ↔ (∀ a, QueueDef.get [("DisplayName", JVal.s "P"), ("K", JVal.s "ab")] "K"
          = some (.s a) → ¬ a = "" → containsSub a "b" = true)) :=
  c5_filter_amended [] "K" "b" [] [("DisplayName", .s "P"), ("K", .s "ab")]
    (by decide) (by decide) (by decide) (Or.inl (by decide))
    (Or.inr ⟨"ab", by decide⟩)

/-! ## Claim C6 -/

/-- C6: for every input, any list returned by `build_printer_queue_list`
is sorted in ascending order under the Python comparison (lexicographic on
the string display names), and whenever the filtered result is empty the
function does not return: it logs, shows the no-queues-available dialog,
and terminates the run via `quit()`. -/
theorem c6_sorted_and_empty_terminal (current : List String)
    (fk fv : Option String) (groups : List String) (defs : List QueueDef) :
    (∀ l, (build_printer_queue_list current fk fv groups defs).res = .ok l →
      List.Sorted (fun a b => pyLe a b = true) l) ∧
    (buildLoop current fk fv groups defs = .ok [] →
      build_printer_queue_list current fk fv groups defs =
        ⟨[.log "No currently-unmapped queues are available",
          .showMessage MSG_NO_QUEUES], .error .quitted⟩) := by
  constructor
  · intro l h
    obtain ⟨ds, _, hl⟩ := build_res_ok h
    rw [hl]
    exact sorted_pySorted ds
  · intro h
    unfold build_printer_queue_list
    simp [h]

/-- Witness for C6: a concrete sorted output, and the concrete terminal
no-queues run when everything is installed. -/
theorem c6_sorted_and_empty_terminal_witness :
    List.Sorted (fun a b => pyLe a b = true)
      [some (.s "HP-BW"), some (.s "HP-Color")] ∧
    build_printer_queue_list ["HP-BW", "HP-Color"] none none []
        [qHPColor, qHPBW] =
      ⟨[.log "No currently-unmapped queues are available",
        .showMessage MSG_NO_QUEUES], .error .quitted⟩ :=
  ⟨(c6_sorted_and_empty_terminal [] none none [] [qHPBW, qHPColor]).1
      [some (.s "HP-BW"), some (.s "HP-Color")] (by decide),
   (c6_sorted_and_empty_terminal ["HP-BW", "HP-Color"] none none []
      [qHPColor, qHPBW]).2 (by decide)⟩

/-! ## Claim C2 -/

/-- Helper: the trigger runner's result, for every environment, trigger
and quiet flag: true exactly when the output carries the success marker
and not the no-policy marker (which is checked first). -/
theorem run_jamf_policy_res (env : Env) (trigger : String) (quiet : Bool) :
    (run_jamf_policy env trigger quiet).res =
      .ok (!containsSub (env.policyOutput trigger) "No policies were found for the"
           && containsSub (env.policyOutput trigger) "Submitting log to") := by
  unfold run_jamf_policy
  cases h1 : containsSub (env.policyOutput trigger) "No policies were found for the" <;>
    cases h2 : containsSub (env.policyOutput trigger) "Submitting log to" <;>
      simp [h1, h2]

/-- C2 counterexample: an output containing both the no-policy-found
marker and the submission-accepted marker is classified as failure, while
the claim requires any output containing the submission-accepted marker to
yield true. -/
theorem c2_counterexample :
    containsSub (envBothMarkers.policyOutput "t") "Submitting log to" = true ∧
    (run_jamf_policy envBothMarkers "t" false).res = .ok false :=
  ⟨by decide, by decide⟩

/-- C2 amended: for every trigger and output, `run_jamf_policy` returns
false when the output contains the no-policy-found marker (which is
checked first, regardless of other content), true when it contains the
submission-accepted marker but not the no-policy-found marker, and false
when it contains neither. -/
theorem c2_policy_classification (env : Env) (trigger : String) (quiet : Bool) :
    (run_jamf_policy env trigger quiet).res =
      .ok (!containsSub (env.policyOutput trigger) "No policies were found for the"
           && containsSub (env.policyOutput trigger) "Submitting log to") :=
  run_jamf_policy_res env trigger quiet

/-! ## Claim C10 -/

/-- Helper: the lpstat loop emits no events. -/
theorem secondTokens_events (lines : List String) :
    (secondTokens lines).events = [] := by
  induction lines with
  | nil => rfl
  | cons l rest ih =>
    unfold secondTokens
    cases hg : (pySplitWS l).get? 1 with
    | none => rfl
    | some t =>
      cases hr : (secondTokens rest).res <;> simp [hr, ih]

/-- Helper: when every line has at least two tokens, the loop returns the
second token of each line. -/
theorem secondTokens_ok (lines : List String)
    (h : ∀ line ∈ lines, 2 ≤ (pySplitWS line).length) :
    (secondTokens lines).res =
      .ok (lines.map (fun line => (pySplitWS line).getD 1 "")) := by
  induction lines with
  | nil => rfl
  | cons l rest ih =>
    have h2 : 2 ≤ (pySplitWS l).length := h l (List.mem_cons_self _ _)
    unfold secondTokens
    cases hg : (pySplitWS l).get? 1 with
    | none =>
      rw [List.get?_eq_none] at hg
      omega
    | some t =>
      have hrest := ih (fun line hl => h line (List.mem_cons_of_mem _ hl))
      have hgd : (pySplitWS l)[1]?.getD "" = t := by
        rw [← List.get?_eq_getElem?, hg]
        rfl
      simp [hrest, hgd]

/-- Helper: `get_currently_mapped_queues` under the all-lines-have-two-
tokens precondition. -/
theorem gcmq_ok (env : Env) (out : String)
    (hout : env.lpstatResult = some out)
    (h : ∀ line ∈ pySplitLines out, 2 ≤ (pySplitWS line).length) :
    (get_currently_mapped_queues env).res =
      .ok ((pySplitLines out).map (fun line => (pySplitWS line).getD 1 "")) := by
  unfold get_currently_mapped_queues
  by_cases he : out = ""
  · subst he
    simp [hout]
    rfl
  · simp [hout, he, secondTokens_ok _ h]

/-- C10: `get_currently_mapped_queues` is total only under the
precondition that every line of non-empty spooler output has at least two
whitespace-delimited tokens — it then returns exactly the second token of
each line — and on a spooler output with a one-token line it fails with an
uncaught `IndexError` instead of returning a list. -/
theorem c10_lpstat_second_tokens (out : String)
    (h : ∀ line ∈ pySplitLines out, 2 ≤ (pySplitWS line).length) :
    (∀ env : Env, env.lpstatResult = some out →
      (get_currently_mapped_queues env).res =
        .ok ((pySplitLines out).map (fun line => (pySplitWS line).getD 1 ""))) ∧
    (get_currently_mapped_queues { env0 with lpstatResult := some "printer\n" }).res
      = .error (.uncaught "IndexError") := by
  refine ⟨fun env henv => gcmq_ok env out henv h, by decide⟩

/-- Witness for C10 at a realistic `lpstat -p` output. -/
theorem c10_lpstat_second_tokens_witness :
    ((get_currently_mapped_queues
        { env0 with lpstatResult := some "printer Foo is idle\nprinter Bar disabled\n" }).res
      = .ok ((pySplitLines "printer Foo is idle\nprinter Bar disabled\n").map
          (fun line => (pySplitWS line).getD 1 ""))) ∧
    (pySplitLines "printer Foo is idle\nprinter Bar disabled\n").map
        (fun line => (pySplitWS line).getD 1 "") = ["Foo", "Bar"] :=
  ⟨(c10_lpstat_second_tokens "printer Foo is idle\nprinter Bar disabled\n"
      (by decide)).1 _ rfl,
   by decide⟩

/-! ## Claim C7 -/

/-- C7 counterexample: a failure of the second directory lookup (the
group-membership query, outside the `try` block) terminates as an
unhandled `CalledProcessError` with no operator-facing dialog, while the
claim requires every lookup failure other than missing credential to show
an operator-facing error message and never crash unhandled. -/
theorem c7_counterexample :
    user_ldap_groups envLdapSecondFail (some "u") =
      ⟨[.log "Generating list of user\x27s AD groups", .ldapQuery 1, .ldapQuery 2],
       .error (.uncaught "CalledProcessError")⟩ ∧
    noDialog (user_ldap_groups envLdapSecondFail (some "u")).events = true :=
  ⟨by decide, by decide⟩

/-- C7 amended: without a Kerberos ticket, `user_ldap_groups` returns the
empty group list having attempted no directory lookup; a failure of the
identity (dn) lookup shows the ldap error dialog and terminates via
`quit()`, with return code 254 logged as an authentication error and any
other code logged as an unknown error; a failure of the subsequent
group-membership lookup propagates as an unhandled `CalledProcessError`
crash. -/
theorem c7_ldap_failures (env : Env) (username : Option String) (u : String)
    (rc : Int) :
    (env.klistOk = false →
      user_ldap_groups env username =
        ⟨[.log "Generating list of user\x27s AD groups",
          .log "Kerberos ticket not found. AD group filtering disabled."],
         .ok []⟩) ∧
    (env.klistOk = true → env.ldapDnResult = .error rc →
      (user_ldap_groups env (some u)).res = .error .quitted ∧
      Event.showMessage MSG_LDAP_ERROR ∈ (user_ldap_groups env (some u)).events ∧
      (rc = 254 →
        Event.log "Encountered an authentication error while searching ldap."
          ∈ (user_ldap_groups env (some u)).events) ∧
      (¬ rc = 254 →
        Event.log ("Unknown error searching ldap. (Error code: " ++ toString rc ++ ")")
          ∈ (user_ldap_groups env (some u)).events)) ∧
    (env.klistOk = true → ∀ lines, env.ldapDnResult = .ok lines →
      ∀ rc2 : Int, env.ldapGroupsResult = .error rc2 →
      (user_ldap_groups env (some u)).res = .error (.uncaught "CalledProcessError")) := by
  refine ⟨fun hk => ?_, fun hk hdn => ?_, fun hk lines hdn rc2 hgr => ?_⟩
  · unfold user_ldap_groups
    simp [hk]
  · unfold user_ldap_groups
    by_cases h254 : rc = 254 <;> simp [hk, hdn, h254]
  · unfold user_ldap_groups
    simp [hk, hdn, hgr]

/-- Witness for C7 at the missing-credential environment. -/
theorem c7_ldap_failures_witness :
    user_ldap_groups env0 (some "u") =
      ⟨[.log "Generating list of user\x27s AD groups",
        .log "Kerberos ticket not found. AD group filtering disabled."],
       .ok []⟩ :=
  (c7_ldap_failures env0 (some "u") "u" 0).1 rfl

/-! ## Claim C3 -/

/-- C3 counterexample: with an absent driver file and a no-policy-found
runner output, the run does terminate with the fatal driver-failure dialog
and never attempts `lpadmin` — but it terminates via `quit()`, whose
process exit status is 0, not non-zero as the claim states. -/
theorem c3_counterexample :
    (add_queue envDriverFail catVendor "Q").res = .error .quitted ∧
    Term.exitCode .quitted = 0 ∧
    Event.showMessage MSG_DRIVER_FAILURE ∈ (add_queue envDriverFail catVendor "Q").events ∧
    noRegistration (add_queue envDriverFail catVendor "Q").events = true :=
  ⟨by decide, by decide, by decide, by decide⟩

/-- C3 amended: for every queue with a set Driver whose file is absent,
if the trigger runner's output contains "No policies were found for the",
the run shows the fatal driver-failure dialog, logs, and terminates via
`quit()` — exiting with status 0 — and queue registration (`lpadmin`) is
never attempted. -/
theorem c3_driver_install_failure (env : Env) (catalog : List (String × QueueDef))
    (queue key : String) (q : QueueDef) (d trig dn : String)
    (hfind : catalog.find? (fun kv => kv.1 == queue) = some (key, q))
    (hdrv : q.index "Driver" = .ok (.s d)) (hd0 : ¬ d = "")
    (hdn : q.indexStr "DisplayName" = .ok dn)
    (htrig : q.indexStr "DriverTrigger" = .ok trig)
    (hfe : env.fileExists d = false)
    (hpol : containsSub (env.policyOutput trig) "No policies were found for the" = true) :
    add_queue env catalog queue =
      ⟨[.log ("Queue " ++ dn ++ " requires a vendor driver"),
        .log ("The driver was not found at " ++ d),
        .log ("Attempting to install drivers via policy trigger " ++ trig),
        .jamfPolicyRun trig,
        .log ("Unable to run Jamf policy via trigger " ++ trig),
        .showMessage MSG_DRIVER_FAILURE,
        .log "Quitting program"],
       .error .quitted⟩ ∧
    Term.exitCode .quitted = 0 := by
  have htr : JVal.truthy (.s d) = true := by simp [JVal.truthy, hd0]
  constructor
  · unfold add_queue search_for_driver install_drivers run_jamf_policy
    simp [hfind, hdrv, hdn, htrig, hfe, hpol, htr]
  · rfl

/-- Witness for C3 amended at the concrete vendor-driver catalog. -/
theorem c3_driver_install_failure_witness :
    add_queue envDriverFail catVendor "Q" =
      ⟨[.log "Queue Q requires a vendor driver",
        .log "The driver was not found at /opt/drv/x.ppd",
        .log "Attempting to install drivers via policy trigger drv",
        .jamfPolicyRun "drv",
        .log "Unable to run Jamf policy via trigger drv",
        .showMessage MSG_DRIVER_FAILURE,
        .log "Quitting program"],
       .error .quitted⟩ :=
  ((c3_driver_install_failure envDriverFail catVendor "Q" "Q" qVendor
      "/opt/drv/x.ppd" "drv" "Q" (by decide) (by decide) (by decide)
      (by decide) (by decide) rfl (by decide)).1)

/-! ## Claim C8 -/

/-- C8: a process-launch failure of the registration command propagates
as an uncaught `OSError` with no dialog at all — the
`except subprocess.CalledProcessError` handler is dead code, so the fatal
mapping-error message the claim (and spec) requires is never produced —
while a successful launch always shows the success report naming the
installed queue and ends the run via `quit()`, whatever the registration
command's own exit status `c` is. -/
theorem c8_registration_launch (c : Int) :
    (add_queue { env0 with lpadminLaunchOk := false } catGeneric "Q"
      = ⟨[.log "Q uses a generic driver"], .error (.uncaught "OSError")⟩ ∧
     noDialog [Event.log "Q uses a generic driver"] = true) ∧
    add_queue { env0 with lpadminExitCode := c } catGeneric "Q"
      = ⟨[.log "Q uses a generic driver",
          .lpadminRun lpadminCmdQ,
          .log ("Excuting command: " ++ joinSpace lpadminCmdQ),
          .log "Queue Q successfully mapped",
          .showMessage (MSG_SUCCESS_ADDED "Q")],
         .error .quitted⟩ :=
  ⟨⟨by decide, by decide⟩, rfl⟩

/-! ## Per-component termination and event lemmas -/

theorem noReg_of_nip {evs : List Event} (h : noInstallOrPrompt evs = true) :
    noRegistration evs = true := by
  unfold noInstallOrPrompt at h
  unfold noRegistration
  rw [List.all_eq_true] at h ⊢
  intro e he
  have := h e he
  cases e <;> simp_all

theorem run_jamf_events_nip (env : Env) (trigger : String) (quiet : Bool) :
    noInstallOrPrompt (run_jamf_policy env trigger quiet).events = true := by
  unfold run_jamf_policy
  cases h1 : containsSub (env.policyOutput trigger) "No policies were found for the" <;>
    cases h2 : containsSub (env.policyOutput trigger) "Submitting log to" <;>
      simp [h1, h2, noInstallOrPrompt]

theorem ulg_events_nip (env : Env) (u : Option String) :
    noInstallOrPrompt (user_ldap_groups env u).events = true := by
  unfold user_ldap_groups
  by_cases hk : env.klistOk = true
  · cases u with
    | none => simp [hk, noInstallOrPrompt]
    | some u2 =>
      cases hdn : env.ldapDnResult with
      | error rc =>
        by_cases h254 : rc = 254 <;> simp [hk, hdn, h254, noInstallOrPrompt]
      | ok lines =>
        cases hg : env.ldapGroupsResult <;> simp [hk, hdn, hg, noInstallOrPrompt]
  · simp [hk, noInstallOrPrompt]

theorem ulg_res_not_exited (env : Env) (u : Option String) (c : Int) :
    ¬ (user_ldap_groups env u).res = .error (.exited c) := by
  intro h
  unfold user_ldap_groups at h
  by_cases hk : env.klistOk = true
  · cases u with
    | none => simp [hk] at h
    | some u2 =>
      cases hdn : env.ldapDnResult with
      | error rc => by_cases h254 : rc = 254 <;> simp [hk, hdn, h254] at h
      | ok lines => cases hg : env.ldapGroupsResult <;> simp [hk, hdn, hg] at h
  · simp [hk] at h

theorem secondTokens_error {lines : List String} {t : Term}
    (h : (secondTokens lines).res = .error t) : t = .uncaught "IndexError" := by
  induction lines with
  | nil => cases h
  | cons l rest ih =>
    unfold secondTokens at h
    cases hg : (pySplitWS l).get? 1 with
    | none =>
      rw [hg] at h
      simp at h
      exact h.symm
    | some t2 =>
      rw [hg] at h
      simp only [PR_bind_res, PR_pure_def] at h
      cases hr : (secondTokens rest).res with
      | error t3 =>
        rw [hr] at h
        simp at h
        rw [h] at hr
        exact ih hr
      | ok a =>
        rw [hr] at h
        simp at h

theorem gcmq_events_nip (env : Env) :
    noInstallOrPrompt (get_currently_mapped_queues env).events = true := by
  unfold get_currently_mapped_queues
  cases hl : env.lpstatResult with
  | none => simp [noInstallOrPrompt]
  | some out =>
    by_cases he : out = "" <;>
      simp [he, noInstallOrPrompt, secondTokens_events]

theorem gcmq_res_not_exited (env : Env) (c : Int) :
    ¬ (get_currently_mapped_queues env).res = .error (.exited c) := by
  intro h
  unfold get_currently_mapped_queues at h
  cases hl : env.lpstatResult with
  | none => simp [hl] at h
  | some out =>
    by_cases he : out = ""
    · simp [hl, he] at h
    · simp [hl, he] at h
      have := secondTokens_error h
      cases this

theorem pyInTest_error {fv : Option String} {av : JVal} {t : Term}
    (h : pyInTest fv av = .error t) : t = .uncaught "TypeError" := by
  cases av with
  | s a =>
    cases fv with
    | none => injection h with h2; exact h2.symm
    | some v => cases h
  | null => injection h with h2; exact h2.symm
  | obj kvs => cases h

theorem groupStep_no_error {groups : List String} {q : QueueDef} {t : Term} :
    ¬ groupStep groups q = .error t := by
  intro h
  unfold groupStep at h
  by_cases hg : optTruthyJ (q.get "ADFilterGroup") = true
  · by_cases hm : valInStrList (q.get "ADFilterGroup") groups = true <;>
      simp [hg, hm] at h
  · simp [hg] at h

theorem queueStep_error {current : List String} {fk fv : Option String}
    {groups : List String} {q : QueueDef} {t : Term}
    (h : queueStep current fk fv groups q = .error t) :
    t = .uncaught "TypeError" := by
  unfold queueStep at h
  by_cases h1 : valInStrList (q.get "DisplayName") current = true
  · simp [h1] at h
  · by_cases h2 : valInStrList (q.get "CUPSName") current = true
    · simp [h1, h2] at h
    · simp only [h1, h2, if_false, Bool.not_eq_true] at h
      cases hf : filterGate fk q with
      | none =>
        simp only [hf] at h
        exact absurd h groupStep_no_error
      | some av =>
        simp only [hf] at h
        cases ht : pyInTest fv av with
        | error t2 =>
          simp only [ht] at h
          injection h with h3
          rw [← h3]
          exact pyInTest_error ht
        | ok b =>
          simp only [ht] at h
          cases b with
          | false => simp at h
          | true =>
            simp only [if_true] at h
            exact absurd h groupStep_no_error

theorem buildLoop_error {current : List String} {fk fv : Option String}
    {groups : List String} :
    ∀ {defs : List QueueDef} {t : Term},
    buildLoop current fk fv groups defs = .error t → t = .uncaught "TypeError" := by
  intro defs
  induction defs with
  | nil => intro t h; cases h
  | cons q rest ih =>
    intro t h
    unfold buildLoop at h
    cases hs : queueStep current fk fv groups q with
    | error t2 =>
      simp only [hs] at h
      injection h with h2
      rw [← h2]
      exact queueStep_error hs
    | ok o =>
      simp only [hs] at h
      cases o with
      | none => exact ih h
      | some d =>
        cases hb : buildLoop current fk fv groups rest with
        | error t2 =>
          simp only [hb] at h
          injection h with h2
          rw [← h2]
          exact ih hb
        | ok ds => simp [hb] at h

theorem build_res_not_exited (current : List String) (fk fv : Option String)
    (groups : List String) (defs : List QueueDef) (c : Int) :
    ¬ (build_printer_queue_list current fk fv groups defs).res
        = .error (.exited c) := by
  intro h
  unfold build_printer_queue_list at h
  cases hb : buildLoop current fk fv groups defs with
  | error t =>
    simp [hb] at h
    have := buildLoop_error hb
    rw [h] at this
    cases this
  | ok ds => cases ds <;> simp [hb] at h

theorem build_events_nip (current : List String) (fk fv : Option String)
    (groups : List String) (defs : List QueueDef) :
    noInstallOrPrompt (build_printer_queue_list current fk fv groups defs).events
      = true := by
  unfold build_printer_queue_list
  cases hb : buildLoop current fk fv groups defs with
  | error t => simp [noInstallOrPrompt]
  | ok ds => cases ds <;> simp [noInstallOrPrompt]

theorem check_cd_res_ok (env : Env) :
    ∃ b, check_for_cocoadialog env = ⟨(check_for_cocoadialog env).events, .ok b⟩ := by
  unfold check_for_cocoadialog
  by_cases hf : env.fileExists CDPATH = true
  · exact ⟨true, by simp [hf]⟩
  · refine ⟨!containsSub (env.policyOutput CD_INSTALL_TRIGGER)
        "No policies were found for the"
      && containsSub (env.policyOutput CD_INSTALL_TRIGGER) "Submitting log to", ?_⟩
    simp only [hf]
    rcases hr : run_jamf_policy env CD_INSTALL_TRIGGER true with ⟨evs, r⟩
    have := run_jamf_policy_res env CD_INSTALL_TRIGGER true
    rw [hr] at this
    simp only [Bool.not_eq_true] at hf
    simp [hf, hr]
    exact this

theorem prompt_queue_error {env : Env} {l : List (Option JVal)} {t : Term}
    (h : (prompt_queue env l).res = .error t) : t = .uncaught "IndexError" := by
  unfold prompt_queue at h
  by_cases hc : env.cdPromptReturn = "Cancel\n"
  · simp [hc] at h
  · cases hg : (pySplitLines env.cdPromptReturn).get? 1 with
    | none =>
      rw [List.get?_eq_getElem?] at hg
      simp [hc, hg] at h
      exact h.symm
    | some s =>
      rw [List.get?_eq_getElem?] at hg
      simp [hc, hg] at h

theorem prompt_events_noReg (env : Env) (l : List (Option JVal)) :
    noRegistration (prompt_queue env l).events = true := by
  unfold prompt_queue
  by_cases hc : env.cdPromptReturn = "Cancel\n"
  · simp [hc, noRegistration]
  · cases hg : (pySplitLines env.cdPromptReturn).get? 1 <;>
      simp [hc, hg, noRegistration]

theorem search_for_driver_error {env : Env} {d trig : String} {t : Term}
    (h : (search_for_driver env d trig).res = .error t) : t = .quitted := by
  unfold search_for_driver install_drivers at h
  by_cases hf : env.fileExists d = true
  · simp [hf] at h
  · rcases hr : run_jamf_policy env trig false with ⟨evs, r⟩
    have hres := run_jamf_policy_res env trig false
    rw [hr] at hres
    have hr2 : r = .ok (!containsSub (env.policyOutput trig) "No policies were found for the"
        && containsSub (env.policyOutput trig) "Submitting log to") := hres
    subst hr2
    simp only [Bool.not_eq_true] at hf
    simp [hf, hr] at h
    by_cases hb : containsSub (env.policyOutput trig) "No policies were found for the" = false →
        containsSub (env.policyOutput trig) "Submitting log to" = false
    · rw [if_pos hb] at h
      simp at h
      exact h.symm
    · rw [if_neg hb] at h
      simp at h

theorem QueueDef_index_error {q : QueueDef} {k : String} {t : Term}
    (h : q.index k = .error t) : t = .uncaught "KeyError" := by
  unfold QueueDef.index at h
  cases hf : q.find? (fun kv => kv.1 == k) with
  | none =>
    simp [hf] at h
    exact h.symm
  | some kv => simp [hf] at h

theorem QueueDef_indexStr_error {q : QueueDef} {k : String} {t : Term}
    (h : q.indexStr k = .error t) :
    t = .uncaught "KeyError" ∨ t = .uncaught "TypeError" := by
  unfold QueueDef.indexStr at h
  cases hi : q.index k with
  | error t2 =>
    simp only [hi] at h
    injection h with h2
    left
    rw [← h2]
    exact QueueDef_index_error hi
  | ok v =>
    simp only [hi] at h
    cases v with
    | s a => cases h
    | null => injection h with h2; right; exact h2.symm
    | obj kvs => injection h with h2; right; exact h2.symm

theorem add_queue_register_not_exited (env : Env) (q : QueueDef)
    (q_driver : String) (c : Int) :
    ¬ (add_queue_register env q q_driver).res = .error (.exited c) := by
  intro h
  unfold add_queue_register at h
  cases hdn : q.indexStr "DisplayName" with
  | error t =>
    simp [hdn] at h
    rcases QueueDef_indexStr_error hdn with h2 | h2 <;> rw [h] at h2 <;> cases h2
  | ok dn =>
    simp only [hdn, liftE_def, PR_bind_mk_ok, PR_bind_res] at h
    cases hloc : q.indexStr "Location" with
    | error t =>
      simp [hloc] at h
      rcases QueueDef_indexStr_error hloc with h2 | h2 <;> rw [h] at h2 <;> cases h2
    | ok loc =>
      simp only [hloc] at h
      cases huri : q.indexStr "URI" with
      | error t =>
        simp [huri] at h
        rcases QueueDef_indexStr_error huri with h2 | h2 <;> rw [h] at h2 <;> cases h2
      | ok uri =>
        simp only [huri] at h
        cases hop : q.index "Options" with
        | error t =>
          simp [hop] at h
          have h2 := QueueDef_index_error hop
          rw [h] at h2
          cases h2
        | ok options =>
          simp only [hop] at h
          by_cases htr : options.truthy = true
          · cases options with
            | s v => simp [htr] at h
            | null => simp [JVal.truthy] at htr
            | obj kvs =>
              by_cases hl : env.lpadminLaunchOk = true <;> simp [htr, hl] at h
          · by_cases hl : env.lpadminLaunchOk = true <;> simp [htr, hl] at h

theorem add_queue_res_not_exited (env : Env) (catalog : List (String × QueueDef))
    (queue : String) (c : Int) :
    ¬ (add_queue env catalog queue).res = .error (.exited c) := by
  intro h
  unfold add_queue at h
  cases hfind : catalog.find? (fun kv => kv.1 == queue) with
  | none => simp [hfind] at h
  | some kv =>
    rcases kv with ⟨key, q⟩
    simp only [hfind, liftE_def, PR_bind_mk_ok, PR_bind_res] at h
    cases hdrv : q.index "Driver" with
    | error t =>
      simp [hdrv] at h
      have h2 := QueueDef_index_error hdrv
      rw [h] at h2
      cases h2
    | ok driver =>
      simp only [hdrv] at h
      by_cases htr : driver.truthy = true
      · cases hdn : q.indexStr "DisplayName" with
        | error t =>
          simp [htr, hdn] at h
          rcases QueueDef_indexStr_error hdn with h2 | h2 <;> rw [h] at h2 <;> cases h2
        | ok dn0 =>
          simp only [htr, if_true, hdn] at h
          cases driver with
          | null => simp [JVal.truthy] at htr
          | obj kvs => simp at h
          | s d =>
            cases htrg : q.indexStr "DriverTrigger" with
            | error t =>
              simp [htrg] at h
              rcases QueueDef_indexStr_error htrg with h2 | h2 <;>
                rw [h] at h2 <;> cases h2
            | ok trig =>
              rcases hsf : search_for_driver env d trig with ⟨evs, r⟩
              cases r with
              | error t =>
                simp [htrg, hsf] at h
                have h2 := search_for_driver_error (t := t) (by rw [hsf])
                rw [h] at h2
                cases h2
              | ok a =>
                simp [htrg, hsf] at h
                exact absurd h (add_queue_register_not_exited env q d c)
      · cases hdn : q.indexStr "DisplayName" with
        | error t =>
          simp [htr, hdn] at h
          rcases QueueDef_indexStr_error hdn with h2 | h2 <;> rw [h] at h2 <;> cases h2
        | ok dn0 =>
          simp [htr, hdn] at h
          exact absurd h (add_queue_register_not_exited env q DEFAULT_DRIVER c)

theorem check_cd_no_error (env : Env) (t : Term) :
    ¬ (check_for_cocoadialog env).res = .error t := by
  intro h
  unfold check_for_cocoadialog at h
  by_cases hf : env.fileExists CDPATH = true
  · simp [hf] at h
  · simp only [hf] at h
    simp at h
    rw [run_jamf_policy_res] at h
    cases h

theorem main_exited (env : Env) (args : Args) (catalog : List (String × QueueDef))
    (c : Int)
    (h : (main env args catalog).res = .error (.exited c)) :
    c = 1 ∧ Event.log FATAL_LOG ∈ (main env args catalog).events := by
  unfold main error_and_exit at h ⊢
  rcases hul : user_ldap_groups env args.jamf_user with ⟨e1, r1⟩
  try simp only [hul] at h ⊢
  cases r1 with
  | error t =>
    simp at h
    exact absurd (show (user_ldap_groups env args.jamf_user).res = .error (.exited c) by
        rw [hul]; simp [h]) (ulg_res_not_exited env args.jamf_user c)
  | ok gs =>
    simp only [PR_bind_mk_ok, PR_bind_res, PR_bind_events] at h ⊢
    rcases hgc : get_currently_mapped_queues env with ⟨e2, r2⟩
    try simp only [hgc] at h ⊢
    cases r2 with
    | error t =>
      simp at h
      exact absurd (show (get_currently_mapped_queues env).res = .error (.exited c) by
          rw [hgc]; simp [h]) (gcmq_res_not_exited env c)
    | ok cur =>
      simp only [PR_bind_mk_ok, PR_bind_res, PR_bind_events] at h ⊢
      rcases hbl : build_printer_queue_list cur args.filter_key args.filter_value gs
          (catalog.map (fun kv => kv.2)) with ⟨e3, r3⟩
      try simp only [hbl] at h ⊢
      cases r3 with
      | error t =>
        simp at h
        exact absurd (show (build_printer_queue_list cur args.filter_key
              args.filter_value gs (catalog.map (fun kv => kv.2))).res
              = .error (.exited c) by rw [hbl]; simp [h])
          (build_res_not_exited cur args.filter_key args.filter_value gs
            (catalog.map (fun kv => kv.2)) c)
      | ok l =>
        simp only [PR_bind_mk_ok, PR_bind_res, PR_bind_events] at h ⊢
        by_cases hps : optTruthy args.preselected_queue = true
        · cases hpsq : args.preselected_queue with
          | none => rw [hpsq] at hps; simp [optTruthy] at hps
          | some p =>
            rw [hpsq] at hps
            simp only [hps, if_true, hpsq, Option.getD_some] at h ⊢
            by_cases hmem : pyStrMem p l = true
            · simp only [hmem, if_true, PR_pure_def, PR_bind_mk_ok, PR_bind_res,
                PR_bind_events, hps] at h ⊢
              exact absurd h (add_queue_res_not_exited env catalog p c)
            · simp [hmem] at h ⊢
              refine ⟨?_, by simp [FATAL_LOG]⟩
              omega
        · simp only [Bool.not_eq_true] at hps
          simp only [hps, Bool.false_eq_true, if_false] at h ⊢
          rcases hcd : check_for_cocoadialog env with ⟨e5, r5⟩
          try simp only [hcd] at h ⊢
          cases r5 with
          | error t =>
            simp at h
            exact absurd (show (check_for_cocoadialog env).res = .error (.exited c) by
                rw [hcd]; simp [h]) (check_cd_no_error env _)
          | ok b =>
            simp only [PR_bind_mk_ok, PR_bind_res, PR_bind_events] at h ⊢
            by_cases hb : b = true
            · simp only [hb, Bool.not_true, Bool.false_eq_true, if_false] at h ⊢
              rcases hpq : prompt_queue env l with ⟨e6, r6⟩
              try simp only [hpq] at h ⊢
              cases r6 with
              | error t =>
                simp at h
                have h2 := prompt_queue_error
                    (show (prompt_queue env l).res = .error t by rw [hpq])
                rw [h] at h2
                cases h2
              | ok sel =>
                simp only [PR_bind_mk_ok, PR_bind_res, PR_bind_events] at h ⊢
                by_cases hsel : optTruthy sel = true
                · simp only [hsel, if_true] at h ⊢
                  exact absurd h (add_queue_res_not_exited env catalog (sel.getD "") c)
                · simp [hsel] at h
            · simp only [Bool.not_eq_true] at hb
              simp [hb] at h ⊢
              refine ⟨?_, by simp [FATAL_LOG]⟩
              omega

theorem prompt_cancel (env : Env) (l : List (Option JVal))
    (hc : env.cdPromptReturn = "Cancel\n") :
    prompt_queue env l =
      ⟨[.log "Prompting user to select desired queue", .promptUser l,
        .log "User canceled queue selection"], .ok none⟩ := by
  unfold prompt_queue
  simp [hc]

/-! ## Claim C4 -/

/-- C4: a pre-selected DisplayName that is absent from the eligible list
makes the program show the operator error naming the rejected value and
terminate fatally through `error_and_exit` (exit status 1); `add_queue` is
never reached and the interactive prompt is never presented. -/
theorem c4_invalid_preselection (env : Env) (args : Args)
    (catalog : List (String × QueueDef)) (p : String) (gs cur : List String)
    (l : List (Option JVal)) (e1 e2 : List Event)
    (hp : args.preselected_queue = some p) (hp0 : ¬ p = "")
    (h1 : user_ldap_groups env args.jamf_user = ⟨e1, .ok gs⟩)
    (h2 : get_currently_mapped_queues env = ⟨e2, .ok cur⟩)
    (h3 : build_printer_queue_list cur args.filter_key args.filter_value gs
            (catalog.map (fun kv => kv.2)) = ⟨[], .ok l⟩)
    (hmem : pyStrMem p l = false) :
    main env args catalog =
      ⟨e1 ++ e2 ++ [.showMessage (MSG_PRESELECTED p),
                    .showMessage MSG_ERROR_UNDEFINED, .log FATAL_LOG],
       .error (.exited 1)⟩ ∧
    noInstallOrPrompt (main env args catalog).events = true := by
  have hps : optTruthy args.preselected_queue = true := by simp [hp, optTruthy, hp0]
  have hps2 : optTruthy (some p) = true := by simp [optTruthy, hp0]
  have hmain : main env args catalog =
      ⟨e1 ++ e2 ++ [.showMessage (MSG_PRESELECTED p),
                    .showMessage MSG_ERROR_UNDEFINED, .log FATAL_LOG],
       .error (.exited 1)⟩ := by
    unfold main error_and_exit
    simp [h1, h2, h3, hp, hps, hps2, hmem, FATAL_LOG]
  refine ⟨hmain, ?_⟩
  rw [hmain]
  have n1 : noInstallOrPrompt e1 = true := by
    have hn := ulg_events_nip env args.jamf_user
    rw [h1] at hn
    exact hn
  have n2 : noInstallOrPrompt e2 = true := by
    have hn := gcmq_events_nip env
    rw [h2] at hn
    exact hn
  unfold noInstallOrPrompt at n1 n2 ⊢
  simp [List.all_append, n1, n2]

/-- Witness for C4 at a concrete run: the rejected value `Z`. -/
theorem c4_invalid_preselection_witness :
    main env0 argsPre catTwo =
      ⟨[.log "Generating list of user\x27s AD groups",
        .log "Kerberos ticket not found. AD group filtering disabled."] ++
       [.log "Gathering list of currently mappped queues",
        .log "No current print queues found"] ++
       [.showMessage (MSG_PRESELECTED "Z"),
        .showMessage MSG_ERROR_UNDEFINED, .log FATAL_LOG],
       .error (.exited 1)⟩ ∧
    noInstallOrPrompt (main env0 argsPre catTwo).events = true :=
  c4_invalid_preselection env0 argsPre catTwo "Z" [] []
    [some (.s "A"), some (.s "B")]
    [.log "Generating list of user\x27s AD groups",
     .log "Kerberos ticket not found. AD group filtering disabled."]
    [.log "Gathering list of currently mappped queues",
     .log "No current print queues found"]
    (by decide) (by decide) (by decide) (by decide) (by decide) (by decide)

/-! ## Claim C9 -/

/-- C9 counterexample: a run that crashes on malformed spooler output
terminates with an uncaught `IndexError` — process exit status 1 — without
ever passing through `error_and_exit` (its log line never appears), so
exit status 1 is not produced only by the generic fatal-error path. -/
theorem c9_counterexample :
    (main envLpstatCrash argsInteractive catTwo).res
      = .error (.uncaught "IndexError") ∧
    Term.exitCode (.uncaught "IndexError") = 1 ∧
    noFatalLog (main envLpstatCrash argsInteractive catTwo).events = true :=
  ⟨by decide, by decide, by decide⟩

/-- C9 amended: the three normal completions exit with status 0 — a
successful installation and the no-eligible-queues notice terminate via
`quit()`, and operator cancellation falls through to a normal return with
no `lpadmin` spawn — and an explicit `sys.exit` termination only ever
carries status 1 and passes through `error_and_exit` (whose log line
appears among the events); unhandled exceptions, however, also exit with
status 1 outside that path. -/
theorem c9_exit_statuses (env : Env) (args : Args)
    (catalog : List (String × QueueDef)) (p : String) (gs cur : List String)
    (l : List (Option JVal)) (e1 e2 e4 : List Event) (c : Int) :
    (user_ldap_groups env args.jamf_user = ⟨e1, .ok gs⟩ →
     get_currently_mapped_queues env = ⟨e2, .ok cur⟩ →
     build_printer_queue_list cur args.filter_key args.filter_value gs
         (catalog.map (fun kv => kv.2)) = ⟨[], .ok l⟩ →
     optTruthy args.preselected_queue = false →
     env.fileExists CDPATH = true →
     env.cdPromptReturn = "Cancel\n" →
     (main env args catalog).res = .ok () ∧
     finalExit (main env args catalog) = 0 ∧
     noRegistration (main env args catalog).events = true) ∧
    (user_ldap_groups env args.jamf_user = ⟨e1, .ok gs⟩ →
     get_currently_mapped_queues env = ⟨e2, .ok cur⟩ →
     buildLoop cur args.filter_key args.filter_value gs
         (catalog.map (fun kv => kv.2)) = .ok [] →
     (main env args catalog).res = .error .quitted ∧
     finalExit (main env args catalog) = 0) ∧
    (user_ldap_groups env args.jamf_user = ⟨e1, .ok gs⟩ →
     get_currently_mapped_queues env = ⟨e2, .ok cur⟩ →
     build_printer_queue_list cur args.filter_key args.filter_value gs
         (catalog.map (fun kv => kv.2)) = ⟨[], .ok l⟩ →
     args.preselected_queue = some p → ¬ p = "" → pyStrMem p l = true →
     add_queue env catalog p = ⟨e4, .error .quitted⟩ →
     (main env args catalog).res = .error .quitted ∧
     finalExit (main env args catalog) = 0) ∧
    ((main env args catalog).res = .error (.exited c) →
     c = 1 ∧ Event.log FATAL_LOG ∈ (main env args catalog).events) := by
  refine ⟨fun h1 h2 h3 hps hcd hc => ?_, fun h1 h2 hloop => ?_,
    fun h1 h2 h3 hp hp0 hmem haq => ?_, fun h => main_exited env args catalog c h⟩
  · have hmain : main env args catalog =
        ⟨e1 ++ e2 ++ [.log "Prompting user to select desired queue",
          .promptUser l, .log "User canceled queue selection"], .ok ()⟩ := by
      unfold main check_for_cocoadialog
      simp [h1, h2, h3, hps, hcd, prompt_cancel env l hc,
        (show optTruthy none = false from rfl)]
    refine ⟨by rw [hmain], by rw [hmain]; rfl, ?_⟩
    rw [hmain]
    have n1 : noRegistration e1 := noReg_of_nip (by
      have hn := ulg_events_nip env args.jamf_user
      rw [h1] at hn
      exact hn)
    have n2 : noRegistration e2 := noReg_of_nip (by
      have hn := gcmq_events_nip env
      rw [h2] at hn
      exact hn)
    unfold noRegistration at n1 n2 ⊢
    simp [List.all_append, n1, n2]
  · have hb : build_printer_queue_list cur args.filter_key args.filter_value gs
        (catalog.map (fun kv => kv.2)) =
        ⟨[.log "No currently-unmapped queues are available",
          .showMessage MSG_NO_QUEUES], .error .quitted⟩ := by
      unfold build_printer_queue_list
      simp [hloop]
    have hmain : (main env args catalog).res = .error .quitted := by
      unfold main
      simp [h1, h2, hb]
    exact ⟨hmain, by unfold finalExit; rw [hmain]; rfl⟩
  · have hps : optTruthy args.preselected_queue = true := by
      simp [hp, optTruthy, hp0]
    have hps2 : optTruthy (some p) = true := by simp [optTruthy, hp0]
    have hmain : (main env args catalog).res = .error .quitted := by
      unfold main
      simp [h1, h2, h3, hp, hps, hps2, hmem, haq]
    exact ⟨hmain, by unfold finalExit; rw [hmain]; rfl⟩

/-- Witness for C9 at a concrete cancellation run. -/
theorem c9_exit_statuses_witness :
    (main env0 argsInteractive catTwo).res = .ok () ∧
    finalExit (main env0 argsInteractive catTwo) = 0 ∧
    noRegistration (main env0 argsInteractive catTwo).events = true :=
  (c9_exit_statuses env0 argsInteractive catTwo "" [] []
      [some (.s "A"), some (.s "B")]
      [.log "Generating list of user\x27s AD groups",
       .log "Kerberos ticket not found. AD group filtering disabled."]
      [.log "Gathering list of currently mappped queues",
       .log "No current print queues found"] [] 0).1
    (by decide) (by decide) (by decide) (by decide) (by decide) (by decide)

end PrinterInstaller
